import Mathlib

set_option autoImplicit false

/-!
Shallow embedding of the scrape-and-cache server (`server.js`): the pure
in-page extraction function passed to `page.evaluate`, the price
normalization, the product cache with its 5-minute TTL, the three HTTP
handlers (`/api/products`, `/api/products/refresh`, `/api/image-proxy`),
and a small interleaving model of concurrent requests.
-/

/-- One scraped listing, as pushed into `results` inside `page.evaluate`. -/
structure ProductRecord where
  id : Nat
  title : String
  price : String
  image : String
  url : String
deriving Repr, DecidableEq

/-- One discovered card, abstracted at the level of the DOM lookups the
extraction loop performs on it:
* `isAnchor` — the result of `card.matches("a")`;
* `selfHref` — the card's own `href` when it is an anchor (`""` when the
  attribute is missing, matching `linkEl.href || linkEl.getAttribute("href") || ""`);
* `innerLink` — the `href` of the first `a[href*="/product/"]` inside the card
  (`none` when `querySelector` returns `null`);
* `titleCands` — the `innerText` of the title-selector chain hits
  (`h2`, `h3`, `h4`, `[class*='title']`, `[class*='name']`) in priority order,
  absent elements omitted;
* `priceText` — the `innerText` of the first matching price element
  (`[data-testid='price']`, `[class*='price']`, `[class*='Price']`), `none`
  when none of the three selectors matches;
* `imgSrc` / `imgDataSrc` — `img.src` and `img.getAttribute("data-src")`,
  `""` when absent. -/
structure Card where
  isAnchor : Bool
  selfHref : String
  innerLink : Option String
  titleCands : List String
  priceText : Option String
  imgSrc : String
  imgDataSrc : String
deriving Repr, DecidableEq

/-- Does `l` begin with `pat`? -/
def beginsWith : List Char → List Char → Bool
  | [], _ => true
  | _ :: _, [] => false
  | p :: ps, c :: cs => p = c && beginsWith ps cs

/-- Does `pat` occur as a contiguous subsequence of `l`? Embeds JS
`String.prototype.includes`. -/
def containsL (pat : List Char) : List Char → Bool
  | [] => beginsWith pat []
  | c :: rest => beginsWith pat (c :: rest) || containsL pat rest

/-- `url.includes("/product/")`. -/
def hasProductSeg (u : String) : Bool := containsL "/product/".data u.data

/-- JS `replace(/\s+/g, " ")`: every maximal whitespace run becomes one space. -/
def collapseWsL : List Char → List Char
  | [] => []
  | [c] => if c.isWhitespace then [' '] else [c]
  | c :: d :: rest =>
    if c.isWhitespace && d.isWhitespace then collapseWsL (d :: rest)
    else (if c.isWhitespace then ' ' else c) :: collapseWsL (d :: rest)

/-- JS `trim()`. -/
def trimL (l : List Char) : List Char :=
  ((l.dropWhile Char.isWhitespace).reverse.dropWhile Char.isWhitespace).reverse

/-- Does `l` start with a match of the regex `\s+D\s+`? (Whitespace run,
then `'D'`, then at least one whitespace character. `\s+` must consume the
whole whitespace run because the following `D` is not whitespace, so greedy
matching with backtracking agrees with `dropWhile`.) -/
def startsWithWsDWs : List Char → Bool
  | [] => false
  | c :: rest =>
    c.isWhitespace &&
      match rest.dropWhile Char.isWhitespace with
      | [] => false
      | d :: r2 =>
        d = 'D' &&
          match r2 with
          | [] => false
          | e :: _ => e.isWhitespace

/-- The part of `l` before the leftmost match of `\s+D\s+`; the whole of `l`
when there is no match. Embeds `split(/\s+D\s+/)[0]`. -/
def beforeWsDWs : List Char → List Char
  | [] => []
  | c :: rest => if startsWithWsDWs (c :: rest) then [] else c :: beforeWsDWs rest

/-- JS `replace(/^D\s*/, "AED ")`: when the text starts with `'D'`, the `'D'`
and any following whitespace are replaced by `"AED "`. -/
def replaceLeadD : List Char → List Char
  | [] => []
  | c :: rest =>
    if c = 'D' then 'A' :: 'E' :: 'D' :: ' ' :: rest.dropWhile Char.isWhitespace
    else c :: rest

/-- The price normalization step
`price = price.split(/\s+D\s+/)[0]?.replace(/^D\s*/, "AED ") || price`. -/
def normPriceL (p : List Char) : List Char :=
  let r := replaceLeadD (beforeWsDWs p)
  if r = [] then p else r

/-- Full price text pipeline applied to a price element's `innerText`:
`innerText.replace(/\s+/g, " ").trim()` followed by the normalization step. -/
def priceFromRaw (s : String) : String :=
  String.mk (normPriceL (trimL (collapseWsL s.data)))

/-- The extracted `price` string of a card (`""` when no price element matched,
mirroring `priceEl?.innerText?...|| ""`). -/
def cardPrice (c : Card) : String :=
  match c.priceText with
  | none => ""
  | some t => priceFromRaw t

/-- The JS `||` chain over the trimmed title candidates: the first candidate
whose trim is non-empty, else `""` (which is falsy, like `undefined`). -/
def firstNonemptyTrim : List String → String
  | [] => ""
  | s :: rest =>
    let t := String.mk (trimL s.data)
    if t = "" then firstNonemptyTrim rest else t

/-- The extracted `title` of a card (`""` standing for the falsy outcome). -/
def cardTitle (c : Card) : String := firstNonemptyTrim c.titleCands

/-- `img?.src || img?.getAttribute("data-src") || ""`, then the
protocol-relative fix `if (image.startsWith("//")) image = "https:" + image`. -/
def cardImage (c : Card) : String :=
  let i := if c.imgSrc = "" then c.imgDataSrc else c.imgSrc
  if beginsWith "//".data i.data then "https:" ++ i else i

/-- `const linkEl = card.matches("a") ? card : card.querySelector('a[href*="/product/"]')`
followed by `linkEl.href || linkEl.getAttribute("href") || ""`; `none` when
`linkEl` is `null` (the `if (!linkEl) continue;` case). -/
def cardUrl (c : Card) : Option String :=
  if c.isAnchor then some c.selfHref else c.innerLink

/-- The record built for a card that passed the link and dedup checks:
`if (title || price) results.push({ id, title: title || "N/A", ... })`.
`none` when neither field extracted (the card is dropped). -/
def cardRecord (c : Card) (u : String) (n : Nat) : Option ProductRecord :=
  if cardTitle c = "" ∧ cardPrice c = "" then none
  else some { id := n, title := if cardTitle c = "" then "N/A" else cardTitle c,
              price := if cardPrice c = "" then "N/A" else cardPrice c,
              image := cardImage c, url := u }

/-- The extraction loop `for (const card of cards) { ... }`: `seen` is the
dedup set, `n` the next `id` (`results.length + 1`). A card whose resolved
URL is new is added to `seen` whether or not it yields a record. -/
def extractGo : List Card → List String → Nat → List ProductRecord
  | [], _, _ => []
  | c :: rest, seen, n =>
    match cardUrl c with
    | none => extractGo rest seen n
    | some u =>
      if hasProductSeg u = false then extractGo rest seen n
      else if u ∈ seen then extractGo rest seen n
      else
        match cardRecord c u n with
        | none => extractGo rest (u :: seen) n
        | some r => r :: extractGo rest (u :: seen) (n + 1)

/-- The pure extraction function passed to `page.evaluate`, applied to the
discovered cards in document order. -/
def extract (cards : List Card) : List ProductRecord := extractGo cards [] 1

/-! ## Cache and HTTP handlers -/

/-- `let cachedProducts = []; let lastScrapeTime = null;` — the module-level
cache. `lastScrapeTime = none` embeds `null`. -/
structure CacheState where
  cachedProducts : List ProductRecord
  lastScrapeTime : Option Nat
deriving Repr, DecidableEq

/-- `const CACHE_DURATION = 5 * 60 * 1000;` (milliseconds). -/
def CACHE_DURATION : Nat := 5 * 60 * 1000

/-- The outcome `scrapeProducts()` would produce if invoked: a record list on
success, or the thrown error's message. -/
inductive ScrapeResult where
  | ok (records : List ProductRecord)
  | err (msg : String)
deriving Repr, DecidableEq

/-- The freshness check
`cachedProducts.length > 0 && lastScrapeTime && (now - lastScrapeTime < CACHE_DURATION)`.
A stored timestamp of `0` is numerically falsy in JS, hence the `t != 0`
conjunct. `Nat` subtraction truncates at `0`, which agrees with the JS
comparison: a negative difference and `0` are both `< CACHE_DURATION`. -/
def isFresh (s : CacheState) (now : Nat) : Bool :=
  s.cachedProducts.length != 0 &&
    match s.lastScrapeTime with
    | none => false
    | some t => t != 0 && decide (now - t < CACHE_DURATION)

/-- A JSON reply from the products endpoints. Fields absent from the JS
object literal are `none` (`cached` is absent from the refresh reply,
`error` from success replies, `count`/`products` from error replies). -/
structure ApiResponse where
  status : Nat
  success : Bool
  count : Option Nat
  cached : Option Bool
  products : Option (List ProductRecord)
  error : Option String
deriving Repr, DecidableEq

/-- Handler of `GET /api/products`. `now` is `Date.now()` captured at request
arrival; `sc` is what `scrapeProducts()` would return if invoked. Result:
the cache state after the request, the reply, and whether `scrapeProducts()`
was invoked. On a miss the code stores `lastScrapeTime = now` — the arrival
time, not the scrape's completion time. -/
def handleProducts (s : CacheState) (now : Nat) (sc : ScrapeResult) :
    CacheState × ApiResponse × Bool :=
  if isFresh s now then
    (s, { status := 200, success := true, count := some s.cachedProducts.length,
          cached := some true, products := some s.cachedProducts, error := none },
     false)
  else
    match sc with
    | .ok recs =>
      ({ cachedProducts := recs, lastScrapeTime := some now },
       { status := 200, success := true, count := some recs.length,
         cached := some false, products := some recs, error := none },
       true)
    | .err m =>
      (s, { status := 500, success := false, count := none, cached := none,
            products := none, error := some m },
       true)

/-- Handler of `GET /api/products/refresh`. It scrapes unconditionally; on
success it stores `lastScrapeTime = Date.now()` evaluated after the scrape,
so `completeTime` is the completion time. Its success reply has no `cached`
field. -/
def handleRefresh (s : CacheState) (completeTime : Nat) (sc : ScrapeResult) :
    CacheState × ApiResponse × Bool :=
  match sc with
  | .ok recs =>
    ({ cachedProducts := recs, lastScrapeTime := some completeTime },
     { status := 200, success := true, count := some recs.length,
       cached := none, products := some recs, error := none },
     true)
  | .err m =>
    (s, { status := 500, success := false, count := none, cached := none,
          products := none, error := some m },
     true)

/-! ## Image proxy -/

/-- What the upstream `fetch(imageUrl, ...)` would return: an HTTP status and
an optional `content-type` header. `response.ok` is `200 ≤ status ≤ 299`. -/
structure Upstream where
  status : Nat
  contentType : Option String
deriving Repr, DecidableEq

/-- The reply of `GET /api/image-proxy`. `networkCalled` records whether the
handler reached the `fetch` call. -/
structure RelayResponse where
  status : Nat
  networkCalled : Bool
  contentType : Option String
  cacheControl : Option String
  errorBody : Option String
deriving Repr, DecidableEq

/-- JS falsiness of `req.query.url`: the parameter is absent (`undefined`) or
is the empty string. -/
def jsFalsyStr : Option String → Bool
  | none => true
  | some s => s = ""

/-- Handler of `GET /api/image-proxy`. `urlParam` is `req.query.url` (`none`
when the parameter is absent); `up` is what the upstream fetch would return
if reached. -/
def relay (urlParam : Option String) (up : Upstream) : RelayResponse :=
  if jsFalsyStr urlParam then
    { status := 400, networkCalled := false, contentType := none,
      cacheControl := none, errorBody := some "Missing url parameter" }
  else if decide (200 ≤ up.status ∧ up.status ≤ 299) = false then
    { status := up.status, networkCalled := true, contentType := none,
      cacheControl := none, errorBody := some "Failed to fetch image" }
  else
    { status := 200, networkCalled := true,
      contentType := some (up.contentType.getD "image/jpeg"),
      cacheControl := some "public, max-age=86400", errorBody := none }

/-! ## Interleaving model of concurrent requests

The server is single-process with asynchronous handlers: a request that
misses the cache calls `await scrapeProducts()`, suspending until the scrape
completes, during which other requests run. `inFlight` counts the
`scrapeProducts()` calls currently running. The cache check at line 143
consults only `cachedProducts`/`lastScrapeTime` — no in-flight guard exists
in the code — so `productsMiss` and `refreshStart` fire regardless of
`inFlight`. -/

/-- Server state: the cache plus the number of in-flight scrapes. -/
structure ServerState where
  cache : CacheState
  inFlight : Nat
deriving Repr, DecidableEq

/-- One atomic scheduling step of the server. -/
inductive Step : ServerState → ServerState → Prop where
  | productsHit (s : ServerState) (now : Nat) :
      isFresh s.cache now = true → Step s s
  | productsMiss (s : ServerState) (now : Nat) :
      isFresh s.cache now = false → Step s ⟨s.cache, s.inFlight + 1⟩
  | refreshStart (s : ServerState) :
      Step s ⟨s.cache, s.inFlight + 1⟩
  | scrapeOk (s : ServerState) (recs : List ProductRecord) (t : Nat) :
      0 < s.inFlight → Step s ⟨⟨recs, some t⟩, s.inFlight - 1⟩
  | scrapeErr (s : ServerState) :
      0 < s.inFlight → Step s ⟨s.cache, s.inFlight - 1⟩

/-- Process start: empty cache, `lastScrapeTime = null`, no scrape running. -/
def initState : ServerState := ⟨⟨[], none⟩, 0⟩

/-- States the server can reach from process start. -/
inductive Reachable : ServerState → Prop where
  | init : Reachable initState
  | step {s s' : ServerState} : Reachable s → Step s s' → Reachable s'

/-! ## Concrete fixtures -/

/-- A sample scraped record used as concrete cache content. -/
def rEx : ProductRecord :=
  { id := 1, title := "TV", price := "AED 999", image := "",
    url := "https://uae.sharafdg.com/product/tv" }

/-- A product-detail URL shared by two cards in the dedup scenarios. -/
def uDup : String := "https://uae.sharafdg.com/product/duplicate"

/-- An anchor card resolving to `uDup` with no title and no price element. -/
def cardNoFields : Card :=
  { isAnchor := true, selfHref := uDup, innerLink := none, titleCands := [],
    priceText := none, imgSrc := "", imgDataSrc := "" }

/-- An anchor card resolving to `uDup` whose `h2` lookup yields a title. -/
def cardWithTitle : Card :=
  { isAnchor := true, selfHref := uDup, innerLink := none,
    titleCands := ["Nice TV"], priceText := none, imgSrc := "", imgDataSrc := "" }

/-! ## Helper lemmas -/

/-- A record built by `cardRecord c u n` carries exactly the URL `u`. -/
theorem cardRecord_url {c : Card} {u : String} {n : Nat} {r : ProductRecord}
    (h : cardRecord c u n = some r) : r.url = u := by
  unfold cardRecord at h
  split at h
  · simp at h
  · injection h with h
    subst h
    rfl

/-- Every record the extraction loop emits has a URL outside the incoming
`seen` set, and the emitted URLs are pairwise distinct. -/
theorem extractGo_url_invariant :
    ∀ (cards : List Card) (seen : List String) (n : Nat),
      (∀ r ∈ extractGo cards seen n, r.url ∉ seen) ∧
        ((extractGo cards seen n).map (fun r => r.url)).Nodup := by
  intro cards
  induction cards with
  | nil => intro seen n; simp [extractGo]
  | cons c rest ih =>
    intro seen n
    cases hcu : cardUrl c with
    | none => simpa [extractGo, hcu] using ih seen n
    | some u =>
      by_cases hps : hasProductSeg u = false
      · simpa [extractGo, hcu, hps] using ih seen n
      · by_cases hseen : u ∈ seen
        · simpa [extractGo, hcu, hps, hseen] using ih seen n
        · cases hcr : cardRecord c u n with
          | none =>
            have h2 := ih (u :: seen) n
            have heq : extractGo (c :: rest) seen n = extractGo rest (u :: seen) n := by
              simp [extractGo, hcu, hps, hseen, hcr]
            rw [heq]
            exact ⟨fun r hr hmem => h2.1 r hr (List.mem_cons_of_mem _ hmem), h2.2⟩
          | some r0 =>
            have h2 := ih (u :: seen) (n + 1)
            have hu0 : r0.url = u := cardRecord_url hcr
            have heq : extractGo (c :: rest) seen n =
                r0 :: extractGo rest (u :: seen) (n + 1) := by
              simp [extractGo, hcu, hps, hseen, hcr]
            rw [heq]
            constructor
            · intro r hr
              rcases List.mem_cons.mp hr with h | h
              · subst h; rw [hu0]; exact hseen
              · exact fun hs => h2.1 r h (List.mem_cons_of_mem _ hs)
            · simp only [List.map_cons, List.nodup_cons]
              refine ⟨fun hmem => ?_, h2.2⟩
              rcases List.mem_map.mp hmem with ⟨r, hr, hru⟩
              exact h2.1 r hr (by rw [hru, hu0]; exact List.mem_cons_self u seen)

/-! ## Claims -/

/-- C4 counterexample: two cards resolve to the same product-detail URL
`uDup`, yet `extract` emits zero (not exactly one) records for that URL:
the first card yields neither title nor price, so it is dropped after its
URL is already marked seen, and the second card is then skipped as a
duplicate. -/
theorem c4_counterexample :
    cardUrl cardNoFields = some uDup ∧ cardUrl cardWithTitle = some uDup ∧
      ((extract [cardNoFields, cardWithTitle]).filter
          (fun r => r.url == uDup)).length = 0 := by
  decide

/-- C4 (amended): within one extraction result the `url` values are pairwise
distinct; for duplicated URLs at most one record is emitted, the one built
from the first card carrying that URL — and when that first card yields
neither title nor price, no record at all is emitted for that URL. -/
theorem c4_amended :
    (∀ cards : List Card, ((extract cards).map (fun r => r.url)).Nodup)
    ∧ extract [cardNoFields, cardWithTitle] = []
    ∧ (extract [cardWithTitle, cardNoFields]).map (fun r => r.title) =
        ["Nice TV"] := by
  exact ⟨fun cards => (extractGo_url_invariant cards [] 1).2, by decide, by decide⟩

/-- C5: a card that passed the link and dedup checks yields no record when
neither the title nor the price heuristic produced a non-empty result; when
exactly one of the two produced a result, a record is emitted with the other
field set to the `"N/A"` sentinel. -/
theorem c5_sentinel_rule (c : Card) (u : String) (rest : List Card)
    (seen : List String) (n : Nat)
    (hu : cardUrl c = some u) (hp : hasProductSeg u = true) (hs : u ∉ seen) :
    (cardTitle c = "" → cardPrice c = "" →
        extractGo (c :: rest) seen n = extractGo rest (u :: seen) n)
    ∧ (cardTitle c ≠ "" → cardPrice c = "" →
        extractGo (c :: rest) seen n =
          { id := n, title := cardTitle c, price := "N/A",
            image := cardImage c, url := u } :: extractGo rest (u :: seen) (n + 1))
    ∧ (cardTitle c = "" → cardPrice c ≠ "" →
        extractGo (c :: rest) seen n =
          { id := n, title := "N/A", price := cardPrice c,
            image := cardImage c, url := u } :: extractGo rest (u :: seen) (n + 1)) := by
  refine ⟨fun h1 h2 => ?_, fun h1 h2 => ?_, fun h1 h2 => ?_⟩
  · simp [extractGo, hu, hp, hs, cardRecord, h1, h2]
  · simp [extractGo, hu, hp, hs, cardRecord, h1, h2]
  · simp [extractGo, hu, hp, hs, cardRecord, h1, h2]

/-- C5 witness: a concrete card with a title and no price element is emitted
with `price = "N/A"`. -/
theorem c5_witness :
    extractGo [cardWithTitle] [] 1 =
      [{ id := 1, title := "Nice TV", price := "N/A", image := "", url := uDup }] := by
  have h := (c5_sentinel_rule cardWithTitle uDup [] [] 1 (by decide) (by decide)
      (by simp)).2.1 (by decide) (by decide)
  rw [h]
  decide

/-- Freshness of a state with a non-empty record list and a non-zero stored
timestamp reduces to the age comparison. -/
theorem isFresh_eq_age {s : CacheState} {t : Nat} (ht : s.lastScrapeTime = some t)
    (ht0 : t ≠ 0) (hne : s.cachedProducts ≠ []) :
    ∀ q, isFresh s q = decide (q - t < CACHE_DURATION) := by
  intro q
  have hlen : (s.cachedProducts.length != 0) = true := by
    simpa using Nat.pos_iff_ne_zero.mp (List.length_pos.mpr hne)
  have ht0' : (t != 0) = true := by simpa using ht0
  simp [isFresh, ht, hlen, ht0']

/-- C1: on `GET /api/products`, a cache entry (non-empty records, non-zero
timestamp `t`) younger than `CACHE_DURATION` is served with `cached = true`
and no scrape invoked; otherwise `scrapeProducts()` runs and, on success,
the cache is replaced and the fresh records are served with `cached = false`.
In particular a request at `t + 299000` ms is a hit and one at `t + 301000`
ms invokes a scrape. -/
theorem c1_products_cache_ttl (s : CacheState) (t now : Nat) (sc : ScrapeResult)
    (recs : List ProductRecord)
    (ht : s.lastScrapeTime = some t) (ht0 : t ≠ 0) (hne : s.cachedProducts ≠ []) :
    (now - t < CACHE_DURATION →
        handleProducts s now sc =
          (s, { status := 200, success := true, count := some s.cachedProducts.length,
                cached := some true, products := some s.cachedProducts, error := none },
           false))
    ∧ (CACHE_DURATION ≤ now - t →
        handleProducts s now (.ok recs) =
          ({ cachedProducts := recs, lastScrapeTime := some now },
           { status := 200, success := true, count := some recs.length,
             cached := some false, products := some recs, error := none },
           true))
    ∧ (handleProducts s (t + 299000) sc).2.2 = false
    ∧ (handleProducts s (t + 301000) (.ok recs)).2.2 = true := by
  have hfresh := isFresh_eq_age ht ht0 hne
  refine ⟨fun h => ?_, fun h => ?_, ?_, ?_⟩
  · simp [handleProducts, hfresh, h]
  · simp [handleProducts, hfresh, Nat.not_lt.mpr h]
  · norm_num [handleProducts, hfresh, CACHE_DURATION]
  · norm_num [handleProducts, hfresh, CACHE_DURATION]

/-- C1 witness: a concrete entry captured at `1000` is a hit (no scrape)
299 s later and a miss (scrape invoked) 301 s later. -/
theorem c1_witness :
    (handleProducts ⟨[rEx], some 1000⟩ (1000 + 299000) (.err "boom")).2.2 = false ∧
    (handleProducts ⟨[rEx], some 1000⟩ (1000 + 301000) (.ok [])).2.2 = true := by
  have h := c1_products_cache_ttl ⟨[rEx], some 1000⟩ 1000 0 (.err "boom") []
    rfl (by decide) (by decide)
  exact ⟨h.2.2.1, h.2.2.2⟩

/-- C2: a failed scrape attempt (from either endpoint) leaves the cache state
exactly as it was, is reported as HTTP 500 with `success = false` and the
error message, and the prior records remain servable: a later request at a
time where the entry is fresh still serves them with `cached = true`. -/
theorem c2_failure_preserves_cache (s : CacheState) (now tm q : Nat) (m : String)
    (sc : ScrapeResult) (hq : isFresh s q = true) :
    (handleProducts s now (.err m)).1 = s
    ∧ (handleRefresh s tm (.err m)).1 = s
    ∧ (isFresh s now = false →
        (handleProducts s now (.err m)).2.1 =
          { status := 500, success := false, count := none, cached := none,
            products := none, error := some m })
    ∧ (handleRefresh s tm (.err m)).2.1 =
        { status := 500, success := false, count := none, cached := none,
          products := none, error := some m }
    ∧ (handleProducts s q sc).2.1.cached = some true
    ∧ (handleProducts s q sc).2.1.products = some s.cachedProducts := by
  refine ⟨?_, rfl, fun h => ?_, rfl, ?_, ?_⟩
  · cases hf : isFresh s now <;> simp [handleProducts, hf]
  · simp [handleProducts, h]
  · simp [handleProducts, hq]
  · simp [handleProducts, hq]

/-- C2 witness: with a concrete one-record entry, a failed scrape at a stale
time leaves the state unchanged and reports 500, and a fresh request still
serves the prior records. -/
theorem c2_witness :
    (handleProducts ⟨[rEx], some 1000⟩ 400000 (.err "boom")).1 = ⟨[rEx], some 1000⟩ ∧
    (handleProducts ⟨[rEx], some 1000⟩ 400000 (.err "boom")).2.1.status = 500 ∧
    (handleProducts ⟨[rEx], some 1000⟩ 1500 (.ok [])).2.1.cached = some true := by
  have h := c2_failure_preserves_cache ⟨[rEx], some 1000⟩ 400000 2000 1500 "boom"
    (.ok []) (by decide)
  exact ⟨h.1, by rw [h.2.2.1 (by decide)], h.2.2.2.2.1⟩

/-- C6: `GET /api/products/refresh` scrapes unconditionally for every cache
state (fresh or not), replaces the entry on success with the completion
timestamp, and replies with a success object that has no `cached` field. -/
theorem c6_refresh_unconditional (s : CacheState) (tm : Nat)
    (recs : List ProductRecord) :
    handleRefresh s tm (.ok recs) =
      ({ cachedProducts := recs, lastScrapeTime := some tm },
       { status := 200, success := true, count := some recs.length, cached := none,
         products := some recs, error := none },
       true) := rfl

/-- C9: every `GET /api/products` reply with `cached = true` carries the
stored records and those are non-empty; when the stored list is empty the
handler invokes a scrape no matter how recent the last scrape was. -/
theorem c9_cached_true_nonempty (s : CacheState) (now : Nat) (sc : ScrapeResult) :
    ((handleProducts s now sc).2.1.cached = some true →
        (handleProducts s now sc).2.1.products = some s.cachedProducts ∧
          s.cachedProducts ≠ [])
    ∧ (s.cachedProducts = [] → (handleProducts s now sc).2.2 = true) := by
  cases hf : isFresh s now with
  | true =>
    have hne : s.cachedProducts ≠ [] := by
      intro hnil
      rw [isFresh, hnil] at hf
      simp at hf
    refine ⟨fun _ => ⟨by simp [handleProducts, hf], hne⟩, fun h => absurd h hne⟩
  | false =>
    cases sc <;> simp [handleProducts, hf]

/-- C9 witness: a fresh non-empty entry is served with its records, and an
empty stored list triggers a scrape one millisecond after its timestamp. -/
theorem c9_witness :
    ((handleProducts ⟨[rEx], some 1000⟩ 1500 (.err "x")).2.1.products =
        some [rEx] ∧ [rEx] ≠ ([] : List ProductRecord)) ∧
    (handleProducts ⟨[], some 1000⟩ 1001 (.ok [])).2.2 = true := by
  exact ⟨(c9_cached_true_nonempty ⟨[rEx], some 1000⟩ 1500 (.err "x")).1 (by decide),
    (c9_cached_true_nonempty ⟨[], some 1000⟩ 1001 (.ok [])).2 rfl⟩

/-- C10: on a cache miss, `GET /api/products` stamps the new entry with the
request's arrival time `t`, while `GET /api/products/refresh` stamps it with
the scrape's completion time `t + d`; consequently the products-endpoint
entry is already stale at `t + CACHE_DURATION` while the refresh entry —
whose scrape finished at the same instant — is still fresh, and its whole
freshness window is shifted by exactly the scrape duration `d`. -/
theorem c10_timestamp_asymmetry (s0 : CacheState) (t d : Nat)
    (recs : List ProductRecord) (ht : t ≠ 0) (hr : recs ≠ []) (hd : 0 < d)
    (hmiss : isFresh s0 t = false) :
    (handleProducts s0 t (.ok recs)).1.lastScrapeTime = some t
    ∧ (handleRefresh s0 (t + d) (.ok recs)).1.lastScrapeTime = some (t + d)
    ∧ (∀ q, isFresh (handleProducts s0 t (.ok recs)).1 q =
        isFresh (handleRefresh s0 (t + d) (.ok recs)).1 (q + d))
    ∧ isFresh (handleProducts s0 t (.ok recs)).1 (t + CACHE_DURATION) = false
    ∧ isFresh (handleRefresh s0 (t + d) (.ok recs)).1 (t + CACHE_DURATION) = true := by
  have hs1 : (handleProducts s0 t (.ok recs)).1 = ⟨recs, some t⟩ := by
    simp [handleProducts, hmiss]
  have hs2 : (handleRefresh s0 (t + d) (.ok recs)).1 = ⟨recs, some (t + d)⟩ := rfl
  have hf1 := isFresh_eq_age (s := ⟨recs, some t⟩) rfl ht hr
  have hf2 := isFresh_eq_age (s := ⟨recs, some (t + d)⟩) rfl (by omega) hr
  refine ⟨by rw [hs1], by rw [hs2], fun q => ?_, ?_, ?_⟩
  · rw [hs1, hs2, hf1 q, hf2 (q + d)]
    have hsub : q + d - (t + d) = q - t := by omega
    rw [hsub]
  · rw [hs1, hf1]
    simp [CACHE_DURATION]
  · rw [hs2, hf2]
    simp only [CACHE_DURATION, decide_eq_true_eq]
    omega

/-- C10 witness: with arrival time `1000` and a five-second scrape, the
products entry is stamped `1000` and the refresh entry `6000`. -/
theorem c10_witness :
    (handleProducts ⟨[], none⟩ 1000 (.ok [rEx])).1.lastScrapeTime = some 1000 ∧
    (handleRefresh ⟨[], none⟩ (1000 + 5000) (.ok [rEx])).1.lastScrapeTime =
      some (1000 + 5000) := by
  have h := c10_timestamp_asymmetry ⟨[], none⟩ 1000 5000 [rEx]
    (by decide) (by decide) (by decide) (by decide)
  exact ⟨h.1, h.2.1⟩

/-- C3: the claim that at most one scrape is ever in flight is false of the
code — the cache check consults no in-flight guard, so two `/api/products`
requests that both miss the cold cache each start their own scrape, reaching
a server state with two concurrent scrapes. -/
theorem c3_no_inflight_guard :
    ¬ (∀ s : ServerState, Reachable s → s.inFlight ≤ 1) := by
  intro h
  have r2 : Reachable ⟨⟨[], none⟩, 2⟩ :=
    Reachable.step
      (Reachable.step Reachable.init (Step.productsMiss initState 5 (by decide)))
      (Step.productsMiss ⟨⟨[], none⟩, 1⟩ 5 (by decide))
  exact absurd (h _ r2) (by decide)

/-- Text containing no whitespace holds no `\s+D\s+` match, so the split
returns it whole. -/
theorem beforeWsDWs_no_ws :
    ∀ l : List Char, (∀ c ∈ l, c.isWhitespace = false) → beforeWsDWs l = l := by
  intro l
  induction l with
  | nil => intro _; rfl
  | cons c rest ih =>
    intro h
    have hc : c.isWhitespace = false := h c (List.mem_cons_self c rest)
    simp [beforeWsDWs, startsWithWsDWs, hc,
      ih (fun x hx => h x (List.mem_cons_of_mem c hx))]

/-- For a whitespace-free amount `a`, the leftmost `\s+D\s+` match in
`a ++ " D " ++ m` starts right after `a`, so `split(...)[0]` is `a`. -/
theorem beforeWsDWs_amount (m : List Char) :
    ∀ a : List Char, (∀ c ∈ a, c.isWhitespace = false) →
      beforeWsDWs (a ++ ' ' :: 'D' :: ' ' :: m) = [] ++ a := by
  intro a
  induction a with
  | nil =>
    intro _
    have h1 : (' ').isWhitespace = true := rfl
    have h2 : ('D').isWhitespace = false := rfl
    simp [beforeWsDWs, startsWithWsDWs, List.dropWhile_cons, h1, h2]
  | cons c a ih =>
    intro h
    have hc : c.isWhitespace = false := h c (List.mem_cons_self c a)
    simp [beforeWsDWs, startsWithWsDWs, hc,
      ih (fun x hx => h x (List.mem_cons_of_mem c hx))]

/-- C7 counterexample: for the raw price text `"549 D Dhs"` — numeric amount,
separator token `D`, trailing currency marker — the normalization step
returns just `"549"`: the marker is dropped but no `"AED "` code is
prefixed, contradicting the claimed output `"AED 549"`. -/
theorem c7_counterexample :
    priceFromRaw "549 D Dhs" = "549" ∧ priceFromRaw "549 D Dhs" ≠ "AED 549" := by
  decide

/-- C7 (amended): for a whitespace-free, `'D'`-free, non-empty amount, raw
text of the form `amount ++ " D " ++ marker` normalizes to the bare amount
with the separator, marker and everything after dropped and no currency code
prefixed; the fixed `"AED "` code is prefixed only when the text starts with
the marker `'D'`, in which case the leading `'D'` and following whitespace
are replaced by `"AED "` before the amount. -/
theorem c7_amended (amt m : List Char) (hne : amt ≠ [])
    (hn : ∀ c ∈ amt, c.isWhitespace = false ∧ c ≠ 'D') :
    normPriceL (amt ++ ' ' :: 'D' :: ' ' :: m) = amt
    ∧ normPriceL ('D' :: ' ' :: amt) = 'A' :: 'E' :: 'D' :: ' ' :: amt := by
  have hnw : ∀ c ∈ amt, c.isWhitespace = false := fun c hc => (hn c hc).1
  have hrep : replaceLeadD amt = amt := by
    cases hamt : amt with
    | nil => rfl
    | cons c a =>
      have hcD : c ≠ 'D' := (hn c (by rw [hamt]; exact List.mem_cons_self c a)).2
      simp [replaceLeadD, hcD]
  constructor
  · have h1 : beforeWsDWs (amt ++ ' ' :: 'D' :: ' ' :: m) = amt := by
      simpa using beforeWsDWs_amount m amt hnw
    simp [normPriceL, h1, hrep, hne]
  · have hsw : startsWithWsDWs (' ' :: amt) = false := by
      cases hamt : amt with
      | nil => rfl
      | cons c a =>
        have hc := hn c (by rw [hamt]; exact List.mem_cons_self c a)
        simp [startsWithWsDWs, List.dropWhile_cons, hc.1, hc.2]
    have hswD : startsWithWsDWs ('D' :: ' ' :: amt) = false := rfl
    have hb2 : beforeWsDWs amt = amt := beforeWsDWs_no_ws amt hnw
    have hb1 : beforeWsDWs ('D' :: ' ' :: amt) = 'D' :: ' ' :: amt := by
      simp [beforeWsDWs, hswD, hsw, hb2]
    have hdw : (' ' :: amt).dropWhile Char.isWhitespace = amt := by
      cases hamt : amt with
      | nil => rfl
      | cons c a =>
        have hc := hn c (by rw [hamt]; exact List.mem_cons_self c a)
        simp [List.dropWhile_cons, hc.1]
    simp [normPriceL, hb1, replaceLeadD, hdw]

/-- C7 witness: the amended behavior at the concrete amount `549`: the
`"549 D Dhs"` layout loses its trailing marker with no prefix added, and the
leading-marker layout `"D 549"` becomes `"AED 549"`. -/
theorem c7_witness :
    normPriceL ("549".data ++ ' ' :: 'D' :: ' ' :: "Dhs".data) = "549".data ∧
    normPriceL ('D' :: ' ' :: "549".data) = 'A' :: 'E' :: 'D' :: ' ' :: "549".data := by
  exact c7_amended "549".data "Dhs".data (by decide) (by decide)

/-- C8 counterexample: the request `GET /api/image-proxy?url=` carries a
present but empty `url` parameter; the handler still replies 400 before any
network call, so "400 before any network call iff the parameter is absent"
is false. -/
theorem c8_counterexample :
    ¬ (∀ (u : Option String) (up : Upstream),
        ((relay u up).status = 400 ∧ (relay u up).networkCalled = false) ↔
          u = none) := by
  intro h
  have := (h (some "") ⟨200, none⟩).mp (by decide)
  simp at this

/-- C8 (amended): the relay replies 400 with no network call exactly when the
`url` parameter is absent or the empty string; for any present non-empty
parameter, an upstream reply outside the 200–299 success range is forwarded
to the caller with the upstream's own status. -/
theorem c8_amended (u : Option String) (up : Upstream) :
    (((relay u up).status = 400 ∧ (relay u up).networkCalled = false) ↔
      (u = none ∨ u = some ""))
    ∧ (u ≠ none → u ≠ some "" → ¬ (200 ≤ up.status ∧ up.status ≤ 299) →
        (relay u up).status = up.status ∧ (relay u up).networkCalled = true) := by
  constructor
  · cases u with
    | none => simp [relay, jsFalsyStr]
    | some s =>
      by_cases hs : s = ""
      · subst hs
        simp [relay, jsFalsyStr]
      · simp only [relay, jsFalsyStr]
        rw [if_neg (by simpa using hs)]
        constructor
        · intro hc
          by_cases hok : decide (200 ≤ up.status ∧ up.status ≤ 299) = false
          · rw [if_pos hok] at hc
            exact absurd hc.2 (by simp)
          · rw [if_neg hok] at hc
            exact absurd hc.2 (by simp)
        · intro hc
          rcases hc with hc | hc
          · exact absurd hc (by simp)
          · exact absurd (Option.some.injEq _ _ ▸ hc) (by simpa using hs)
  · intro h1 h2 h3
    cases u with
    | none => exact absurd rfl h1
    | some s =>
      have hs : s ≠ "" := fun hs => h2 (by rw [hs])
      simp only [relay, jsFalsyStr]
      rw [if_neg (by simpa using hs), if_pos (by simpa using h3)]
      exact ⟨rfl, rfl⟩

/-- C8 witness: a present non-empty `url` with a 404 upstream is answered
with status 404 after the network call. -/
theorem c8_witness :
    (relay (some "https://cdn/img.jpg") ⟨404, none⟩).status = 404 ∧
    (relay (some "https://cdn/img.jpg") ⟨404, none⟩).networkCalled = true := by
  exact (c8_amended (some "https://cdn/img.jpg") ⟨404, none⟩).2
    (by simp) (by simp) (by decide)
